import Mathlib

/-!
Verification of the `regelverk-python` repository (Norwegian admission-rules
scaffold) against its natural-language specification.

The repository's presentation and infrastructure layers contain real code
(HTTP route handlers, settings defaults, DB-session lifecycle); those are
embedded directly from the source.  The domain layer (specifications,
policies, factories) exists in the source only as docstrings describing the
intended design, so those components are modelled from the specification's
contracts, as noted in each doc comment.
-/

namespace Regelverk

/-! ## Presentation layer: route handlers (from the source) -/

/-- A FastAPI router as configured in the source: a URL path base
(`prefix=` argument) plus tags.  Embeds the `APIRouter(...)` calls in
`src/presentation/api/routes/`. -/
structure Router where
  pathBase : String
  tags : List String
deriving Repr, DecidableEq

/-- Embeds `router = APIRouter(prefix="/api/v1/admission", tags=["admission"])`
from `admission_routes.py`. -/
def admissionRouter : Router := { pathBase := "/api/v1/admission", tags := ["admission"] }

/-- Embeds `router = APIRouter(prefix="/api/v1/students", tags=["students"])`
from `student_routes.py`. -/
def studentRouter : Router := { pathBase := "/api/v1/students", tags := ["students"] }

/-- Embeds `router = APIRouter(prefix="/api/v1/quotas", tags=["quotas"])`
from `quota_routes.py`. -/
def quotaRouter : Router := { pathBase := "/api/v1/quotas", tags := ["quotas"] }

/-- Embeds `async def get_admission_info() -> dict[str, str]` from
`admission_routes.py`: the handler takes no request data (modelled as `Unit`)
and returns the literal dict `{"message": "Admission API"}` (modelled as an
association list). -/
def get_admission_info (_ : Unit) : List (String × String) :=
  [("message", "Admission API")]

/-- Embeds `async def get_students_info() -> dict[str, str]` from
`student_routes.py`. -/
def get_students_info (_ : Unit) : List (String × String) :=
  [("message", "Student API")]

/-- Embeds `async def get_quotas_info() -> dict[str, str]` from
`quota_routes.py`. -/
def get_quotas_info (_ : Unit) : List (String × String) :=
  [("message", "Quota API")]

/-- Embeds `@app.get("/health")` / `async def health_check()` from
`main.py`: the registered path of the health-check endpoint. -/
def healthPath : String := "/health"

/-- Embeds the body of `health_check`: `return {"status": "ok"}`. -/
def health_check (_ : Unit) : List (String × String) :=
  [("status", "ok")]

/-! ## Infrastructure: settings (from the source) -/

/-- Embeds the `Settings(BaseSettings)` class of
`src/infrastructure/config/settings.py`: the six configuration fields. -/
structure Settings where
  ENV : String
  DEBUG : Bool
  DATABASE_URL : String
  API_HOST : String
  API_PORT : Nat
  LOG_LEVEL : String
deriving Repr, DecidableEq

/-- The environment / `.env` overrides visible to pydantic-settings at
construction time: for each field, `none` means no override is present. -/
structure EnvOverrides where
  ENV : Option String
  DEBUG : Option Bool
  DATABASE_URL : Option String
  API_HOST : Option String
  API_PORT : Option Nat
  LOG_LEVEL : Option String

/-- No environment variable and no `.env` entry overrides any field. -/
def noOverrides : EnvOverrides :=
  { ENV := none, DEBUG := none, DATABASE_URL := none, API_HOST := none
    API_PORT := none, LOG_LEVEL := none }

/-- Embeds `Settings()` construction: each field takes the override when one
is present, and otherwise the class-level default written in
`settings.py` (`ENV: str = "development"`, `DEBUG: bool = False`,
`DATABASE_URL: str = "sqlite:///./regelverk.db"`, `API_HOST: str = "0.0.0.0"`,
`API_PORT: int = 8000`, `LOG_LEVEL: str = "INFO"`). -/
def Settings.construct (e : EnvOverrides) : Settings :=
  { ENV := e.ENV.getD "development"
    DEBUG := e.DEBUG.getD false
    DATABASE_URL := e.DATABASE_URL.getD "sqlite:///./regelverk.db"
    API_HOST := e.API_HOST.getD "0.0.0.0"
    API_PORT := e.API_PORT.getD 8000
    LOG_LEVEL := e.LOG_LEVEL.getD "INFO" }

/-! ## Infrastructure: DB session lifecycle (from the source) -/

/-- How the consumer of the `get_db_session` generator finishes: it either
completes normally or raises an exception (carrying a message) into the
generator. -/
inductive ConsumerOutcome where
  | normal
  | raised (msg : String)
deriving Repr, DecidableEq

/-- Result of running Python code: normal completion or a propagating
exception. -/
inductive PyResult (α : Type) where
  | ok (a : α)
  | exn (msg : String)
deriving Repr, DecidableEq

/-- The state of the SQLAlchemy session created by `SessionLocal()`. -/
structure DBSession where
  closed : Bool
deriving Repr, DecidableEq

/-- Python `try: body finally: fin` over an explicit state: the `finally`
block runs on the state no matter whether the body completed normally or
raised, and the body's result (value or exception) then propagates. -/
def tryFinally {σ α : Type} (body : σ → PyResult α × σ) (fin : σ → σ)
    (s : σ) : PyResult α × σ :=
  let (r, s') := body s
  (r, fin s')

/-- Embeds `get_db_session` from `database.py`:
`session = SessionLocal()` creates an open session; `try: yield session`
hands it to the consumer, whose behaviour is the `outcome` argument
(normal return or an exception thrown into the generator);
`finally: session.close()` closes it.  Returns the propagated result
together with the final session state. -/
def get_db_session (outcome : ConsumerOutcome) : PyResult Unit × DBSession :=
  let session : DBSession := { closed := false }
  tryFinally
    (fun s => match outcome with
      | .normal => (.ok (), s)
      | .raised m => (.exn m, s))
    (fun s => { s with closed := true })
    session

/-! ## Domain layer: Specification Engine

The source module `src/domain/specifications/__init__.py` is docstring-only
(no class is implemented), so the engine is modelled from the spec. -/

/-- Modelled from the spec: the Specification pattern of §4.1, missing from
`src/domain/specifications/__init__.py` (docstring only).  A specification is
a composable boolean predicate over a candidate of type `α`; the combinators
`and_`, `or_`, `not_` build new specifications without mutating their
operands, so composites form a closed syntax tree over atomic predicates. -/
inductive Spec (α : Type) where
  | atom (p : α → Bool)
  | and_ (s1 s2 : Spec α)
  | or_ (s1 s2 : Spec α)
  | not_ (s : Spec α)

/-- Modelled from the spec: `is_satisfied_by(candidate) -> bool` of §4.1.
AND and OR short-circuit (Lean's `&&`/`||` evaluate the right operand only
when needed), matching the spec's short-circuit requirement. -/
def Spec.is_satisfied_by {α : Type} : Spec α → α → Bool
  | .atom p, c => p c
  | .and_ s1 s2, c => s1.is_satisfied_by c && s2.is_satisfied_by c
  | .or_ s1 s2, c => s1.is_satisfied_by c || s2.is_satisfied_by c
  | .not_ s, c => !(s.is_satisfied_by c)

/-! ## Domain layer: Admission Policy Engine

The source module `src/domain/policies/__init__.py` is docstring-only, so
the engine is modelled from the spec (§3 data model, §4.2 contract). -/

/-- Modelled from the spec: the `Student` entity of §3, restricted to the
fields the policy engine reads — identity, grade-point average (the declared
secondary ranking key of §4.2(b)) and special-competence flags that atomic
specifications may consult. -/
structure Student where
  id : Nat
  gpa : Nat
  flags : List String
deriving Repr, DecidableEq

/-- Modelled from the spec: the `Quota` entity of §3 — a named allocation
slice with a capacity and its own eligibility specification.  Capacity is an
integer (a negative value is the configuration error of §4.2) and the
eligibility specification may be absent (the other configuration error). -/
structure Quota where
  name : String
  capacity : Int
  eligibility : Option (Spec Student)

/-- Modelled from the spec: the configuration errors of §4.2 — a quota with
negative capacity or with no eligibility specification, reported with the
offending quota's name before evaluation begins (§7 taxonomy (1)). -/
inductive ConfigError where
  | negativeCapacity (quotaName : String)
  | missingEligibility (quotaName : String)
deriving Repr, DecidableEq

/-- A quota that passed configuration validation: capacity is a known
natural number and the eligibility specification is present. -/
structure CheckedQuota where
  name : String
  capacity : Nat
  eligibility : Spec Student

/-- Modelled from the spec: pre-evaluation validation of a single quota
(§4.2 error conditions).  Negative capacity and absent eligibility are
surfaced as `ConfigError`s naming the quota. -/
def checkQuota (q : Quota) : Except ConfigError CheckedQuota :=
  if q.capacity < 0 then .error (.negativeCapacity q.name)
  else match q.eligibility with
    | none => .error (.missingEligibility q.name)
    | some s => .ok { name := q.name, capacity := q.capacity.toNat, eligibility := s }

/-- Validate every quota of a program, stopping at the first configuration
error; evaluation proper is entered only when all quotas pass. -/
def checkQuotas : List Quota → Except ConfigError (List CheckedQuota)
  | [] => .ok []
  | q :: qs =>
    match checkQuota q with
    | .error e => .error e
    | .ok c =>
      match checkQuotas qs with
      | .error e => .error e
      | .ok cs => .ok (c :: cs)

/-- Modelled from the spec: the declared deterministic secondary key of
§4.2(b) — higher grade-point average first, ties broken by lower student
identifier.  Total: any two distinct students are strictly ordered. -/
def rankBefore (a b : Student) : Bool :=
  b.gpa < a.gpa || (a.gpa == b.gpa && a.id < b.id)

/-- Insert a student into a list already sorted by `rankBefore`. -/
def insertRanked (s : Student) : List Student → List Student
  | [] => [s]
  | t :: ts => if rankBefore s t then s :: t :: ts else t :: insertRanked s ts

/-- Sort students by the total tie-break order (insertion sort), producing
the ranked consideration order within a quota. -/
def rankStudents : List Student → List Student
  | [] => []
  | s :: ss => insertRanked s (rankStudents ss)

/-- Per-quota outcome of an evaluation: the ranked admitted list (capped by
capacity) and the remaining eligible students, who are waitlisted. -/
structure QuotaResult where
  quotaName : String
  admitted : List Student
  waitlisted : List Student

/-- The student identifiers admitted under a quota result. -/
def QuotaResult.admittedIds (r : QuotaResult) : List Nat :=
  r.admitted.map Student.id

/-- The ranked consideration order for one quota: the students of the
current pool satisfying the quota's eligibility specification (§4.2(a)),
sorted by the deterministic tie-break key (§4.2(b)). -/
def eligibleRanked (q : CheckedQuota) (pool : List Student) : List Student :=
  rankStudents (pool.filter (fun s => q.eligibility.is_satisfied_by s))

/-- Evaluate a single quota over the current pool: the first `capacity`
eligible students (in rank order) are admitted; the remaining eligible
students are waitlisted, not rejected (§4.2(d)). -/
def evalOneQuota (q : CheckedQuota) (pool : List Student) : QuotaResult :=
  { quotaName := q.name
    admitted := (eligibleRanked q pool).take q.capacity
    waitlisted := (eligibleRanked q pool).drop q.capacity }

/-- Remove the students just admitted from the pool considered by
subsequent quotas (§4.2(c): no double allocation). -/
def removeAdmitted (adm : List Student) (pool : List Student) : List Student :=
  pool.filter (fun s => !(adm.any (fun a => a.id == s.id)))

/-- Modelled from the spec: sequential quota processing of §4.2/§5.  Quotas
are evaluated in declared order; each quota's admitted students are removed
from the pool before the next quota is processed. -/
def evalQuotas : List CheckedQuota → List Student → List QuotaResult
  | [], _ => []
  | q :: qs, pool =>
    evalOneQuota q pool ::
      evalQuotas qs (removeAdmitted (evalOneQuota q pool).admitted pool)

/-- Modelled from the spec: the Admission Policy Engine entry point of §4.2.
Validates the program's quota configuration up front and only then runs the
pure sequential evaluation over the immutable student snapshot. -/
def evaluate (quotas : List Quota) (students : List Student) :
    Except ConfigError (List QuotaResult) :=
  match checkQuotas quotas with
  | .error e => .error e
  | .ok checked => .ok (evalQuotas checked students)

/-! ## Domain layer: Rule/Entity Factory

The source module `src/domain/factories/__init__.py` is docstring-only, so
the factory is modelled from the spec (§4.3) and the module docstring's
`create_from_config({'type': 'minimum_grade', 'subject': ..., 'grade': ...})`
example. -/

/-- A value held in a raw configuration dict: a string or an integer. -/
inductive ConfigValue where
  | str (s : String)
  | int (n : Nat)
deriving Repr, DecidableEq

/-- A raw configuration dict, modelled as an association list. -/
abbrev Config := List (String × ConfigValue)

/-- First value bound to a key in a configuration dict. -/
def Config.find (c : Config) (k : String) : Option ConfigValue :=
  match c.find? (fun kv => kv.1 == k) with
  | some kv => some kv.2
  | none => none

/-- Modelled from the spec: the `AdmissionRule` variant type of §3 — a closed
tagged variant over rule kinds (§9), here the two kinds named by the source
docstrings: `minimum_grade(subject, threshold)` and special competence. -/
inductive AdmissionRule where
  | minimum_grade (subject : String) (grade : Nat)
  | special_competence
deriving Repr, DecidableEq

/-- Modelled from the spec: the domain validation error of §4.3, which names
the missing or invalid field; a subtype of the domain exception hierarchy
rooted at `DomainException` (`src/domain/exceptions.py`), distinct from any
generic runtime error. -/
inductive ValidationError where
  | missingField (field : String)
  | invalidField (field : String)
deriving Repr, DecidableEq

/-- The field an error names. -/
def ValidationError.field : ValidationError → String
  | .missingField f => f
  | .invalidField f => f

/-- Modelled from the spec: `create_from_config(dict) -> AdmissionRule`
of §4.3.  Validates the required fields per rule kind: a `type` field must
be present and hold a known rule-kind string; `minimum_grade` further
requires a string `subject` and an integer `grade`.  Every failure is a
`ValidationError` naming the offending field; no other failure mode
exists. -/
def create_from_config (c : Config) : Except ValidationError AdmissionRule :=
  match Config.find c "type" with
  | none => .error (.missingField "type")
  | some (.int _) => .error (.invalidField "type")
  | some (.str t) =>
    if t == "minimum_grade" then
      match Config.find c "subject" with
      | none => .error (.missingField "subject")
      | some (.int _) => .error (.invalidField "subject")
      | some (.str subj) =>
        match Config.find c "grade" with
        | none => .error (.missingField "grade")
        | some (.str _) => .error (.invalidField "grade")
        | some (.int g) => .ok (.minimum_grade subj g)
    else if t == "special_competence" then .ok .special_competence
    else .error (.invalidField "type")

/-! ## Helper lemmas -/

/-- A single quota fails validation exactly when its capacity is negative or
its eligibility specification is absent. -/
lemma checkQuota_error_iff (q : Quota) :
    (∃ e, checkQuota q = .error e) ↔ (q.capacity < 0 ∨ q.eligibility = none) := by
  unfold checkQuota
  by_cases hc : q.capacity < 0
  · simp [hc]
  · cases he : q.eligibility <;> simp [hc, he]

/-- A quota list fails validation exactly when some quota in it is
misconfigured. -/
lemma checkQuotas_error_iff (qs : List Quota) :
    (∃ e, checkQuotas qs = .error e) ↔
      (∃ q ∈ qs, q.capacity < 0 ∨ q.eligibility = none) := by
  induction qs with
  | nil => simp [checkQuotas]
  | cons q qs ih =>
    constructor
    · rintro ⟨e, he⟩
      rw [checkQuotas] at he
      cases h1 : checkQuota q with
      | error e1 =>
        exact ⟨q, List.mem_cons_self q qs, (checkQuota_error_iff q).mp ⟨e1, h1⟩⟩
      | ok c =>
        rw [h1] at he
        cases h2 : checkQuotas qs with
        | error e2 =>
          obtain ⟨q', hq', hbad⟩ := ih.mp ⟨e2, h2⟩
          exact ⟨q', List.mem_cons_of_mem q hq', hbad⟩
        | ok cs => rw [h2] at he; exact absurd he (by simp)
    · rintro ⟨q', hq', hbad⟩
      rw [List.mem_cons] at hq'
      rw [checkQuotas]
      rcases hq' with rfl | hq'
      · obtain ⟨e, he⟩ := (checkQuota_error_iff q').mpr hbad
        exact ⟨e, by rw [he]⟩
      · cases h1 : checkQuota q with
        | error e1 => exact ⟨e1, rfl⟩
        | ok c =>
          obtain ⟨e2, h2⟩ := ih.mpr ⟨q', hq', hbad⟩
          exact ⟨e2, by rw [h2]⟩

/-- Inserting into a ranked list adds exactly the inserted element. -/
lemma mem_insertRanked (s x : Student) (l : List Student) :
    x ∈ insertRanked s l ↔ x = s ∨ x ∈ l := by
  induction l with
  | nil => simp [insertRanked]
  | cons t ts ih =>
    rw [insertRanked]
    split
    · simp [List.mem_cons]
    · rw [List.mem_cons, List.mem_cons, ih]
      tauto

/-- Ranking is a reordering: membership is preserved. -/
lemma mem_rankStudents (x : Student) (l : List Student) :
    x ∈ rankStudents l ↔ x ∈ l := by
  induction l with
  | nil => simp [rankStudents]
  | cons s ss ih =>
    rw [rankStudents, mem_insertRanked, ih, List.mem_cons]

/-- The ranked eligible list holds exactly the pool members satisfying the
quota's specification. -/
lemma mem_eligibleRanked {q : CheckedQuota} {pool : List Student} {x : Student} :
    x ∈ eligibleRanked q pool ↔
      x ∈ pool ∧ q.eligibility.is_satisfied_by x = true := by
  rw [eligibleRanked, mem_rankStudents, List.mem_filter]

/-- Students admitted under a quota come from its pool. -/
lemma admitted_subset_pool {q : CheckedQuota} {pool : List Student} {x : Student}
    (hx : x ∈ (evalOneQuota q pool).admitted) : x ∈ pool := by
  simp only [evalOneQuota] at hx
  exact (mem_eligibleRanked.mp (List.take_subset q.capacity _ hx)).1

/-- Membership in the reduced pool: still in the pool, and not sharing an
identifier with any admitted student. -/
lemma mem_removeAdmitted {adm pool : List Student} {x : Student} :
    x ∈ removeAdmitted adm pool ↔ x ∈ pool ∧ ∀ a ∈ adm, ¬(a.id = x.id) := by
  rw [removeAdmitted, List.mem_filter]
  simp

/-- Every student admitted anywhere in a sequential evaluation was in the
starting pool. -/
lemma result_admitted_mem_pool (qs : List CheckedQuota) :
    ∀ (pool : List Student) (r : QuotaResult), r ∈ evalQuotas qs pool →
      ∀ (x : Student), x ∈ r.admitted → x ∈ pool := by
  induction qs with
  | nil => intro pool r hr; simp [evalQuotas] at hr
  | cons q qs ih =>
    intro pool r hr x hx
    rw [evalQuotas, List.mem_cons] at hr
    rcases hr with rfl | hr
    · exact admitted_subset_pool hx
    · exact (mem_removeAdmitted.mp (ih _ r hr x hx)).1

/-- Sequential evaluation yields pairwise-disjoint admitted identifier
lists: a student admitted under one quota never reappears in a later
quota's admitted list. -/
lemma evalQuotas_admitted_disjoint (qs : List CheckedQuota) :
    ∀ (pool : List Student),
      (evalQuotas qs pool).Pairwise
        (fun r1 r2 => ∀ sid, sid ∈ r1.admittedIds → sid ∉ r2.admittedIds) := by
  induction qs with
  | nil => intro pool; simp [evalQuotas]
  | cons q qs ih =>
    intro pool
    rw [evalQuotas]
    refine List.Pairwise.cons ?_ (ih _)
    intro r hr sid hsid1 hsid2
    rw [QuotaResult.admittedIds, List.mem_map] at hsid1 hsid2
    obtain ⟨a, ha, haid⟩ := hsid1
    obtain ⟨x, hx, hxid⟩ := hsid2
    have hxpool := result_admitted_mem_pool qs _ r hr x hx
    exact (mem_removeAdmitted.mp hxpool).2 a ha (haid.trans hxid.symm)

/-! ## Claims -/

/-- C1: each of the three routers returns a single static JSON message —
the handlers are constant functions of their (empty) input, returning
`{"message": "Admission API"}`, `{"message": "Student API"}` and
`{"message": "Quota API"}` at the paths `/api/v1/admission/`,
`/api/v1/students/` and `/api/v1/quotas/` respectively. -/
theorem C1_static_route_messages (u : Unit) :
    get_admission_info u = [("message", "Admission API")] ∧
    get_students_info u = [("message", "Student API")] ∧
    get_quotas_info u = [("message", "Quota API")] ∧
    admissionRouter.pathBase ++ "/" = "/api/v1/admission/" ∧
    studentRouter.pathBase ++ "/" = "/api/v1/students/" ∧
    quotaRouter.pathBase ++ "/" = "/api/v1/quotas/" :=
  ⟨rfl, rfl, rfl, by decide, by decide, by decide⟩

/-- C2: the health-check endpoint is registered at `GET /health` and its
handler returns exactly `{"status": "ok"}` on every invocation. -/
theorem C2_health_check_static (u : Unit) :
    health_check u = [("status", "ok")] ∧ healthPath = "/health" :=
  ⟨rfl, rfl⟩

/-- C3: for all specifications and candidates, `and_` evaluates to the
conjunction of its operands' evaluations and `not_` to the negation of its
operand's evaluation. -/
theorem C3_combinator_laws {α : Type} (S1 S2 S : Spec α) (C : α) :
    (S1.and_ S2).is_satisfied_by C = (S1.is_satisfied_by C && S2.is_satisfied_by C) ∧
    (S.not_).is_satisfied_by C = !(S.is_satisfied_by C) :=
  ⟨rfl, rfl⟩

/-- C4: in every successful program evaluation, the admitted lists of the
quotas are pairwise disjoint on student identifiers — a student is admitted
under at most one quota, having been removed from consideration in all
subsequent quotas. -/
theorem C4_no_double_allocation (quotas : List Quota) (students : List Student)
    (results : List QuotaResult) (h : evaluate quotas students = .ok results) :
    results.Pairwise
      (fun r1 r2 => ∀ sid, sid ∈ r1.admittedIds → sid ∉ r2.admittedIds) := by
  unfold evaluate at h
  cases hc : checkQuotas quotas with
  | error e => rw [hc] at h; exact absurd h (by simp)
  | ok cs =>
    rw [hc] at h
    simp only [Except.ok.injEq] at h
    rw [← h]
    exact evalQuotas_admitted_disjoint cs students

/-- C4 witness: a concrete two-quota program over two students, both
eligible everywhere, produces disjoint admitted lists. -/
theorem C4_no_double_allocation_witness :
    (evalQuotas
        [⟨"ordinary", 1, Spec.atom (fun _ => true)⟩,
         ⟨"special", 1, Spec.atom (fun _ => true)⟩]
        [⟨1, 5, []⟩, ⟨2, 4, []⟩]).Pairwise
      (fun r1 r2 => ∀ sid, sid ∈ r1.admittedIds → sid ∉ r2.admittedIds) :=
  C4_no_double_allocation
    [⟨"ordinary", 1, some (Spec.atom (fun _ => true))⟩,
     ⟨"special", 1, some (Spec.atom (fun _ => true))⟩]
    [⟨1, 5, []⟩, ⟨2, 4, []⟩] _ rfl

/-- C5: for the quota at the head of an evaluation step, the number
admitted never exceeds capacity, every eligible pool member ends up
admitted or waitlisted (never rejected), and with capacity 0 nobody is
admitted and every eligible pool member is waitlisted. -/
theorem C5_capacity_exhaustion (q : CheckedQuota) (qs : List CheckedQuota)
    (pool : List Student) (r : QuotaResult) (rs : List QuotaResult)
    (h : evalQuotas (q :: qs) pool = r :: rs) :
    r.admitted.length ≤ q.capacity ∧
    (∀ s ∈ pool, q.eligibility.is_satisfied_by s = true →
      s ∈ r.admitted ∨ s ∈ r.waitlisted) ∧
    (q.capacity = 0 → r.admitted = [] ∧
      ∀ s ∈ pool, q.eligibility.is_satisfied_by s = true → s ∈ r.waitlisted) := by
  rw [evalQuotas] at h
  injection h with h1 h2
  rw [← h1]
  simp only [evalOneQuota]
  refine ⟨List.length_take_le _ _, ?_, ?_⟩
  · intro s hs hel
    have hmem : s ∈ (eligibleRanked q pool).take q.capacity ++
        (eligibleRanked q pool).drop q.capacity := by
      rw [List.take_append_drop]
      exact mem_eligibleRanked.mpr ⟨hs, hel⟩
    exact List.mem_append.mp hmem
  · intro hcap
    rw [hcap]
    refine ⟨List.take_zero _, ?_⟩
    intro s hs hel
    rw [List.drop_zero]
    exact mem_eligibleRanked.mpr ⟨hs, hel⟩

/-- C5 witness: a capacity-0 quota over one eligible student admits nobody
and waitlists that student. -/
theorem C5_capacity_exhaustion_witness :
    (QuotaResult.mk "zero" [] [Student.mk 1 5 []]).admitted = [] ∧
    Student.mk 1 5 [] ∈ (QuotaResult.mk "zero" [] [Student.mk 1 5 []]).waitlisted := by
  have h := (C5_capacity_exhaustion ⟨"zero", 0, Spec.atom (fun _ => true)⟩ []
      [⟨1, 5, []⟩] ⟨"zero", [], [⟨1, 5, []⟩]⟩ [] rfl).2.2 rfl
  exact ⟨h.1, h.2 ⟨1, 5, []⟩ (by simp) rfl⟩

/-- C6: `create_from_config` always either returns a rule or fails with a
domain validation error that correctly names a missing field (not bound in
the dict) or an invalid one (bound, but of the wrong shape); no other
outcome exists. -/
theorem C6_factory_domain_errors (c : Config) :
    (∃ r, create_from_config c = .ok r) ∨
    (∃ f, (create_from_config c = .error (.missingField f) ∧ Config.find c f = none) ∨
          (create_from_config c = .error (.invalidField f) ∧
            ∃ v, Config.find c f = some v)) := by
  unfold create_from_config
  cases ht : Config.find c "type" with
  | none => exact Or.inr ⟨"type", Or.inl ⟨rfl, ht⟩⟩
  | some v =>
    cases v with
    | int n => exact Or.inr ⟨"type", Or.inr ⟨rfl, _, ht⟩⟩
    | str t =>
      by_cases h1 : t == "minimum_grade"
      · simp only [h1, if_true]
        cases hs : Config.find c "subject" with
        | none => exact Or.inr ⟨"subject", Or.inl ⟨rfl, hs⟩⟩
        | some w =>
          cases w with
          | int n => exact Or.inr ⟨"subject", Or.inr ⟨rfl, _, hs⟩⟩
          | str subj =>
            cases hg : Config.find c "grade" with
            | none => exact Or.inr ⟨"grade", Or.inl ⟨rfl, hg⟩⟩
            | some w2 =>
              cases w2 with
              | str s2 => exact Or.inr ⟨"grade", Or.inr ⟨rfl, _, hg⟩⟩
              | int g => exact Or.inl ⟨_, rfl⟩
      · simp only [h1, if_false]
        by_cases h2 : t == "special_competence"
        · simp only [h2, if_true]
          exact Or.inl ⟨_, rfl⟩
        · simp only [h2, if_false]
          exact Or.inr ⟨"type", Or.inr ⟨rfl, _, ht⟩⟩

/-- C7: admission evaluation is deterministic — it is a pure function of
the program/student snapshot, so two evaluations of equal snapshots produce
identical result lists in identical order. -/
theorem C7_deterministic_evaluation (q1 q2 : List Quota) (s1 s2 : List Student)
    (hq : q1 = q2) (hs : s1 = s2) : evaluate q1 s1 = evaluate q2 s2 := by
  rw [hq, hs]

/-- C7 witness: two runs of the engine on a concrete one-quota, one-student
snapshot coincide. -/
theorem C7_deterministic_evaluation_witness :
    evaluate [⟨"ordinary", 1, some (Spec.atom (fun _ => true))⟩] [⟨1, 5, []⟩] =
    evaluate [⟨"ordinary", 1, some (Spec.atom (fun _ => true))⟩] [⟨1, 5, []⟩] :=
  C7_deterministic_evaluation _ _ _ _ rfl rfl

/-- C8: evaluation fails (with a configuration error) exactly when some
quota has negative capacity or lacks an eligibility specification, and the
failure comes from the up-front validation pass — otherwise evaluation runs
to completion and returns a result list. -/
theorem C8_config_error_up_front (quotas : List Quota) (students : List Student) :
    ((∃ e, evaluate quotas students = .error e) ↔
      (∃ q ∈ quotas, q.capacity < 0 ∨ q.eligibility = none)) ∧
    (∀ e, evaluate quotas students = .error e → checkQuotas quotas = .error e) := by
  constructor
  · rw [← checkQuotas_error_iff]
    unfold evaluate
    cases h : checkQuotas quotas <;> simp [h]
  · intro e he
    unfold evaluate at he
    cases h : checkQuotas quotas with
    | error e1 => rw [h] at he; simp at he; rw [he]
    | ok cs => rw [h] at he; exact absurd he (by simp)

/-- C9: with no environment or `.env` overrides, `Settings()` has exactly
the defaults `ENV="development"`, `DEBUG=False`,
`DATABASE_URL="sqlite:///./regelverk.db"`, `API_HOST="0.0.0.0"`,
`API_PORT=8000`, `LOG_LEVEL="INFO"`. -/
theorem C9_settings_defaults :
    Settings.construct noOverrides =
      { ENV := "development", DEBUG := false
        DATABASE_URL := "sqlite:///./regelverk.db", API_HOST := "0.0.0.0"
        API_PORT := 8000, LOG_LEVEL := "INFO" } := rfl

/-- C10: the session created by `get_db_session` is closed after the
consumer finishes — both on normal completion and when the consumer raises —
because `session.close()` sits in a `finally` block; the consumer's
exception still propagates. -/
theorem C10_session_always_closed (outcome : ConsumerOutcome) :
    (get_db_session outcome).2.closed = true ∧
    (get_db_session outcome).1 =
      (match outcome with | .normal => .ok () | .raised m => .exn m) := by
  cases outcome <;> exact ⟨rfl, rfl⟩

end Regelverk
